import Mathlib

/-!
Shallow embedding of the nvim-dbee databricks adapter/driver
(`dbee/adapters/databricks_driver.go`, `Databricks.Connect`,
`Databricks.GetHelpers`) and of the host RPC handler layer
(`main.go`: `Dbee_register_client`, `Dbee_execute`, `Dbee_get_schema`),
together with theorems settling the specification claims about them.

External effects (url parsing, `sql.Open`, query execution, buffer
output, `strconv.Atoi`) are passed in as oracle functions returning
`Option`, mirroring the fallible Go calls.
-/

namespace NvimDbee

/- ===================== net/url slice used by the adapter ============== -/

/-- The slice of Go's `net/url.URL` the adapter uses: everything outside
the query string is kept opaque in `base`; the query string is kept as
an association list of key/value pairs (Go's `url.Values`, restricted to
single-valued keys, which is all the adapter ever stores).  `Encode`'s
key-sorting canonicalisation is not modelled: no claim depends on the
rendering order of distinct keys. -/
structure URL where
  base : String
  query : List (String × String)
deriving DecidableEq, Repr

/-- Go `url.Values.Get`: first value for the key, `""` when absent. -/
def valuesGet (ps : List (String × String)) (key : String) : String :=
  match ps.find? (fun p => p.1 = key) with
  | some p => p.2
  | none => ""

/-- Go `url.Values.Set`: replace all values of `key` by the single
value `val`. -/
def valuesSet (ps : List (String × String)) (key val : String) :
    List (String × String) :=
  ps.filter (fun p => p.1 ≠ key) ++ [(key, val)]

/-- Go `url.Values.Encode` followed by `url.URL.String`: render the
query pairs back into the URL text. -/
def valuesEncode : List (String × String) → String
  | [] => ""
  | [(k, v)] => k ++ "=" ++ v
  | (k, v) :: rest => k ++ "=" ++ v ++ "&" ++ valuesEncode rest

def URL.queryGet (u : URL) (key : String) : String :=
  valuesGet u.query key

def URL.setParam (u : URL) (key val : String) : URL :=
  { u with query := valuesSet u.query key val }

def URL.render (u : URL) : String :=
  u.base ++ "?" ++ valuesEncode u.query

/- ===================== core types the driver uses ===================== -/

/-- A low-level `*sql.DB` handle, abstracted to an identity. -/
abbrev DB := Nat

/-- `core.StructureType`: the kind classification of an introspected
object (the five backend kinds plus the defined unknown value `None`). -/
inductive StructureType where
  | Table
  | View
  | MaterializedView
  | StreamingTable
  | Managed
  | None
deriving DecidableEq, Repr

/-- A dynamically typed scalar cell of a result row
(`row[0].(string)` in Go either yields a string or fails). -/
inductive CellValue where
  | str (s : String)
  | other
deriving DecidableEq, Repr

/-- A result set: a list of rows of dynamically typed cells. -/
abbrev Rows := List (List CellValue)

/- ===================== databricksDriver ============================== -/

/-- `databricksDriver` state: the client's live handle `c`
(`builders.Client` abstracted to the `DB` handle it wraps), the parsed
connection URL, and the current catalog. -/
structure databricksDriver where
  c : DB
  connectionURL : URL
  currentCatalog : String
deriving DecidableEq, Repr

/-- `getDatabricksStructureType`: maps a databricks kind string onto
`core.StructureType`; unrecognised strings map to `None`
(the Go `switch` with a `default` arm). -/
def getDatabricksStructureType (typ : String) : StructureType :=
  if typ = "TABLE" ∨ typ = "BASE TABLE" ∨ typ = "SYSTEM TABLE" then
    StructureType.Table
  else if typ = "VIEW" ∨ typ = "SYSTEM VIEW" then
    StructureType.View
  else if typ = "MATERIALIZED_VIEW" then
    StructureType.MaterializedView
  else if typ = "STREAMING_TABLE" then
    StructureType.StreamingTable
  else if typ = "MANAGED" then
    StructureType.Managed
  else
    StructureType.None

/-- The row loop of `ListDatabases`: pull each row, type-assert its
first cell to a string, and collect the catalogs in order; the first
non-string (or missing) first cell aborts with an error, as the Go
loop returns on the failed assertion. -/
def collectCatalogs : Rows → Except String (List String)
  | [] => Except.ok []
  | row :: rest =>
    match row with
    | CellValue.str s :: _ =>
      match collectCatalogs rest with
      | Except.ok tail => Except.ok (s :: tail)
      | Except.error e => Except.error e
    | _ => Except.error "expected string"

/-- `databricksDriver.ListDatabases`: runs `SHOW CATALOGS;` (its result
is the `queryRes` oracle: `none` models a failed query), collects the
catalog names, and returns `(d.currentCatalog, available)`. -/
def databricksDriver.ListDatabases (queryRes : Option Rows)
    (d : databricksDriver) : Except String (String × List String) :=
  match queryRes with
  | none => Except.error "query failed"
  | some rows =>
    match collectCatalogs rows with
    | Except.error e => Except.error e
    | Except.ok available => Except.ok (d.currentCatalog, available)

/-- `databricksDriver.SelectDatabase`: set the `catalog` query parameter
on the stored connection URL, re-open against the rewritten URL
(`openDB` models `sql.Open`; `none` is a failed open), and only on a
successful open record the new catalog and swap the client's handle to
the new connection (`builders.Client.Swap`, modelled from the spec as
replacement of the live handle).  Returns the call's outcome together
with the driver state after the call.  Note the URL rewrite happens
before the open is attempted. -/
def databricksDriver.SelectDatabase (openDB : String → Option DB)
    (d : databricksDriver) (name : String) :
    Except String Unit × databricksDriver :=
  let u := d.connectionURL.setParam "catalog" name
  let d1 : databricksDriver := { d with connectionURL := u }
  match openDB u.render with
  | none => (Except.error "error switching catalog", d1)
  | some db =>
    (Except.ok (), { d1 with currentCatalog := name, c := db })

/- ===================== Databricks adapter ============================ -/

/-- `core.TableOptions`: the schema/table addressing pair. -/
structure TableOptions where
  Schema : String
  Table : String
deriving DecidableEq, Repr

/-- `Databricks.Connect`: parse the connection string (`parse` models
`url.Parse`; `none` is a parse failure), open against the re-rendered
URL (`openDB` models `sql.Open`), then require a non-empty `catalog`
query parameter; on success build the driver from the new handle, the
parsed URL and that catalog. -/
def Databricks.Connect (parse : String → Option URL)
    (openDB : String → Option DB) (connectionURL : String) :
    Except String databricksDriver :=
  match parse connectionURL with
  | none => Except.error "failed to parse connection string"
  | some u =>
    match openDB u.render with
    | none => Except.error "unable to connect to databricks"
    | some db =>
      let currentCatalog := u.queryGet "catalog"
      if currentCatalog = "" then
        Except.error "required parameter catalog is missing"
      else
        Except.ok { c := db, connectionURL := u,
                    currentCatalog := currentCatalog }

/-- `Databricks.GetHelpers`: the map literal of helper queries, as an
ordered label/template association list.  Go's
`fmt.Sprintf(template, opts.Schema, opts.Table)` substitutes the two
`%s` verbs verbatim, which is inlined here as concatenation of the
template around the two names. -/
def Databricks.GetHelpers (opts : TableOptions) :
    List (String × String) :=
  let list :=
    "SELECT * FROM " ++ opts.Schema ++ "." ++ opts.Table ++ " LIMIT 100;"
  let columns :=
    "\nSELECT *\nFROM information_schema.column\nWHERE table_schema = '"
      ++ opts.Schema ++ "' \n\tAND table_name = '" ++ opts.Table ++ "';"
  [("List", list), ("Columns", columns)]

/-- Lookup in a helper map by label (Go map indexing). -/
def helperLookup (m : List (String × String)) (label : String) :
    Option String :=
  (m.find? (fun p => p.1 = label)).map (fun p => p.2)

/- ===================== host RPC handlers (main.go) ==================== -/

/-- A `clients.Client` handle, abstracted to an identity; its behaviour
is supplied by oracles. -/
abbrev Client := Nat

/-- The `clientMap` connection registry: Go's `map[string]clients.Client`,
as a function from id to the registered client. -/
def Registry := String → Option Client

/-- Go map assignment `clientMap[id] = client`. -/
def Registry.set (reg : Registry) (id : String) (c : Client) : Registry :=
  fun k => if k = id then some c else reg k

/-- Outcome of one RPC handler call.  `indexOutOfRange` models a Go
runtime panic from indexing past the end of the `args` slice — the one
failure mode that is not a returned `error`. -/
inductive HandlerResult (α : Type) where
  | ok (a : α)
  | err (msg : String)
  | indexOutOfRange
deriving DecidableEq, Repr

/-- `Dbee_register_client` handler: guard `len(args) < 3`, read id, url
and type, construct the matching client (`newPostgres` / `newRedis`
model `clients.NewPostgres` / `clients.NewRedis`; `none` is a failed
construction), reject unsupported types, and on success store the
client under `id`.  Returns the outcome, the registry after the call,
and the list of clients the call closed (the handler never closes
anything — closes happen only in `main`'s deferred teardown sweep). -/
def Dbee_register_client (newPostgres newRedis : String → Option Client)
    (args : List String) (reg : Registry) :
    HandlerResult Unit × Registry × List Client :=
  if args.length < 3 then
    (HandlerResult.err "not enough arguments passed to Dbee_register_client",
     reg, [])
  else
    -- indices 0, 1, 2 are all covered by the guard, so plain defaulted
    -- access is exact here (Go's slice indexing cannot panic on them)
    let id := args.getD 0 ""
    let url := args.getD 1 ""
    let typ := args.getD 2 ""
    if typ = "postgres" then
      match newPostgres url with
      | none => (HandlerResult.err "NewPostgres failed", reg, [])
      | some client => (HandlerResult.ok (), reg.set id client, [])
    else if typ = "redis" then
      match newRedis url with
      | none => (HandlerResult.err "NewRedis failed", reg, [])
      | some client => (HandlerResult.ok (), reg.set id client, [])
    else
      (HandlerResult.err
        ("database of type \"" ++ typ ++ "\" is not supported"), reg, [])

/-- `Dbee_execute` handler: guard `len(args) < 2`, read id and query,
convert `args[2]` to a buffer number (`atoi` models `strconv.Atoi`;
the access of `args[2]` is NOT covered by the guard, so it can index
out of range), look the client up, run the query
(`clientExecute c q = none` is a failed `client.Execute`), and set the
rows into the buffer output (`outSet rows = some e` is a failed
`out.Set`).  Returns the outcome, the queries executed during the call
(as client/query pairs), and the registry after the call (the handler
never writes `clientMap`). -/
def Dbee_execute (atoi : String → Option Int)
    (clientExecute : Client → String → Option Rows)
    (outSet : Rows → Option String)
    (args : List String) (reg : Registry) :
    HandlerResult Unit × List (Client × String) × Registry :=
  if args.length < 2 then
    (HandlerResult.err "not enough arguments passed to Dbee_execute",
     [], reg)
  else
    -- indices 0 and 1 are covered by the guard; index 2 is not, so its
    -- bound is checked explicitly: failing it is the Go runtime panic
    let id := args.getD 0 ""
    let query := args.getD 1 ""
    if 2 < args.length then
      match atoi (args.getD 2 "") with
      | none => (HandlerResult.err "Atoi failed", [], reg)
      | some _bufnr =>
        match reg id with
        | none =>
          (HandlerResult.err ("client with id " ++ id ++ " not registered"),
           [], reg)
        | some client =>
          match clientExecute client query with
          | none =>
            (HandlerResult.err "Execute failed", [(client, query)], reg)
          | some rows =>
            match outSet rows with
            | some e => (HandlerResult.err e, [(client, query)], reg)
            | none => (HandlerResult.ok (), [(client, query)], reg)
    else
      (HandlerResult.indexOutOfRange, [], reg)

/-- A `client.Schema()` result: Go's `map[string][]string`, kept
abstract as an association list. -/
abbrev SchemaMap := List (String × List String)

/-- `Dbee_get_schema` handler: guard `len(args) < 1`, read the id, look
the client up and fetch its schema (`clientSchema c = none` is a failed
`client.Schema`).  Returns the outcome, the clients whose schema the
call fetched, and the registry after the call (never written). -/
def Dbee_get_schema (clientSchema : Client → Option SchemaMap)
    (args : List String) (reg : Registry) :
    HandlerResult SchemaMap × List Client × Registry :=
  if args.length < 1 then
    (HandlerResult.err "not enough arguments passed to Dbee_get_schema",
     [], reg)
  else
    -- index 0 is covered by the guard
    let id := args.getD 0 ""
    match reg id with
    | none =>
      (HandlerResult.err ("client with id " ++ id ++ " not registered"),
       [], reg)
    | some client =>
      match clientSchema client with
      | none => (HandlerResult.err "Schema failed", [client], reg)
      | some schema => (HandlerResult.ok schema, [client], reg)

/- ===================== theorems ====================================== -/

/-- C4: the kind-classifier is total and never fails: every recognised
databricks kind string maps to its `StructureType` exactly as the
switch states, and every other string maps to the defined unknown value
`None`. -/
theorem getDatabricksStructureType_total_classification :
    getDatabricksStructureType "TABLE" = StructureType.Table ∧
    getDatabricksStructureType "BASE TABLE" = StructureType.Table ∧
    getDatabricksStructureType "SYSTEM TABLE" = StructureType.Table ∧
    getDatabricksStructureType "VIEW" = StructureType.View ∧
    getDatabricksStructureType "SYSTEM VIEW" = StructureType.View ∧
    getDatabricksStructureType "MATERIALIZED_VIEW" =
      StructureType.MaterializedView ∧
    getDatabricksStructureType "STREAMING_TABLE" =
      StructureType.StreamingTable ∧
    getDatabricksStructureType "MANAGED" = StructureType.Managed ∧
    ∀ s : String,
      s ∉ ["TABLE", "BASE TABLE", "SYSTEM TABLE", "VIEW", "SYSTEM VIEW",
           "MATERIALIZED_VIEW", "STREAMING_TABLE", "MANAGED"] →
      getDatabricksStructureType s = StructureType.None := by
  refine ⟨by decide, by decide, by decide, by decide, by decide, by decide,
          by decide, by decide, ?_⟩
  intro s hs
  simp only [List.mem_cons, List.mem_singleton, not_or, List.not_mem_nil,
    not_false_iff, and_true] at hs
  obtain ⟨h1, h2, h3, h4, h5, h6, h7, h8⟩ := hs
  simp [getDatabricksStructureType, h1, h2, h3, h4, h5, h6, h7, h8]

/-- Witness for C4: an unmapped kind string classifies to `None`. -/
theorem getDatabricksStructureType_total_classification_witness :
    getDatabricksStructureType "EXTERNAL" = StructureType.None :=
  getDatabricksStructureType_total_classification.2.2.2.2.2.2.2.2
    "EXTERNAL" (by decide)

/-- C8: for every `TableOptions`, `GetHelpers` yields exactly the labels
`List` and `Columns`, each mapped to the fixed query template with the
schema and table names substituted verbatim (no parsing, validation or
escaping). -/
theorem GetHelpers_exact_labels_and_templates :
    ∀ opts : TableOptions,
      (Databricks.GetHelpers opts).map Prod.fst = ["List", "Columns"] ∧
      helperLookup (Databricks.GetHelpers opts) "List" =
        some ("SELECT * FROM " ++ opts.Schema ++ "." ++ opts.Table ++
          " LIMIT 100;") ∧
      helperLookup (Databricks.GetHelpers opts) "Columns" =
        some ("\nSELECT *\nFROM information_schema.column\nWHERE table_schema = '"
          ++ opts.Schema ++ "' \n\tAND table_name = '" ++ opts.Table ++
          "';") ∧
      ∀ label : String, label ≠ "List" → label ≠ "Columns" →
        helperLookup (Databricks.GetHelpers opts) label = none := by
  intro opts
  refine ⟨rfl, rfl, rfl, ?_⟩
  intro label h1 h2
  simp [helperLookup, Databricks.GetHelpers, List.find?, Ne.symm h1,
    Ne.symm h2]

/-- Witness for C8: a label other than `List`/`Columns` is absent. -/
theorem GetHelpers_exact_labels_witness :
    helperLookup (Databricks.GetHelpers ⟨"public", "users"⟩) "Other" =
      none :=
  (GetHelpers_exact_labels_and_templates ⟨"public", "users"⟩).2.2.2
    "Other" (by decide) (by decide)

/-- C5 (refuting evaluation): a `Dbee_execute` call with exactly two
arguments passes the `len(args) < 2` guard, yet the subsequent read of
`args[2]` indexes past the end of the argument list — the Go code
panics there instead of returning an error. -/
theorem Dbee_execute_guard_passes_but_index_2_out_of_range :
    Dbee_execute (fun _ => some 0) (fun _ _ => none) (fun _ => none)
      ["some-id", "SELECT 1;"] (fun _ => none) =
    (HandlerResult.indexOutOfRange, [], fun _ => none) := rfl

/-- A concrete driver state used to evaluate the switch protocol. -/
def dEx : databricksDriver :=
  { c := 1,
    connectionURL := { base := "token:tok@host:443/sql/path",
                       query := [("catalog", "a")] },
    currentCatalog := "a" }

/-- C1 (counterexample): a failing `SelectDatabase` does NOT leave the
driver state completely unchanged — the stored connection URL has
already been rewritten with the new catalog when the open fails. -/
theorem SelectDatabase_failure_changes_state :
    (databricksDriver.SelectDatabase (fun _ => none) dEx "b").1 =
      Except.error "error switching catalog" ∧
    (databricksDriver.SelectDatabase (fun _ => none) dEx "b").2 ≠ dEx :=
  ⟨rfl, by decide⟩

/-- C1 (amended): if the open of the new connection fails,
`SelectDatabase` leaves the current catalog and the live handle exactly
as they were, but the stored connection URL has already been rewritten
with the `catalog` parameter set to the requested name. -/
theorem SelectDatabase_failure_preserves_catalog_and_handle :
    ∀ (openDB : String → Option DB) (d : databricksDriver) (name : String),
      openDB ((d.connectionURL.setParam "catalog" name).render) = none →
      databricksDriver.SelectDatabase openDB d name =
        (Except.error "error switching catalog",
         { d with connectionURL := d.connectionURL.setParam "catalog" name }) := by
  intro openDB d name h
  simp [databricksDriver.SelectDatabase, h]

/-- Witness for the amended C1: the failing switch on a concrete state
errors and keeps catalog `a` and handle `1`, with only the URL moved. -/
theorem SelectDatabase_failure_preserves_witness :
    databricksDriver.SelectDatabase (fun _ => none) dEx "b" =
      (Except.error "error switching catalog",
       { dEx with connectionURL := dEx.connectionURL.setParam "catalog" "b" }) :=
  SelectDatabase_failure_preserves_catalog_and_handle (fun _ => none) dEx "b"
    rfl

/-- C2: if the open of the new connection succeeds, `SelectDatabase`
returns success, the current catalog becomes `name` (so a subsequent
`ListDatabases` reports `current = name`), and the live handle becomes
exactly the newly opened connection; the handle is replaced only when
the open succeeded (a failed open leaves it unchanged, by
`SelectDatabase` returning the old handle on the error path). -/
theorem SelectDatabase_success_switches_catalog :
    ∀ (openDB : String → Option DB) (d : databricksDriver) (name : String)
      (db : DB),
      openDB ((d.connectionURL.setParam "catalog" name).render) = some db →
      (databricksDriver.SelectDatabase openDB d name).1 = Except.ok () ∧
      (databricksDriver.SelectDatabase openDB d name).2.currentCatalog =
        name ∧
      (databricksDriver.SelectDatabase openDB d name).2.c = db ∧
      ∀ (queryRes : Option Rows) (cur : String) (avail : List String),
        databricksDriver.ListDatabases queryRes
            (databricksDriver.SelectDatabase openDB d name).2 =
          Except.ok (cur, avail) → cur = name := by
  intro openDB d name db h
  refine ⟨?_, ?_, ?_, ?_⟩
  · simp [databricksDriver.SelectDatabase, h]
  · simp [databricksDriver.SelectDatabase, h]
  · simp [databricksDriver.SelectDatabase, h]
  · intro queryRes cur avail hq
    simp [databricksDriver.SelectDatabase, h,
      databricksDriver.ListDatabases] at hq
    match queryRes, hq with
    | some rows, hq =>
      simp [databricksDriver.ListDatabases] at hq
      cases hcoll : collectCatalogs rows with
      | error e => rw [hcoll] at hq; cases hq
      | ok available =>
        rw [hcoll] at hq
        exact (Prod.mk.injEq _ _ _ _).mp (Except.ok.inj hq) |>.1.symm

/-- Witness for C2: on a concrete state, switching to `b` with a
successful open yields catalog `b` and the new handle `2`. -/
theorem SelectDatabase_success_witness :
    (databricksDriver.SelectDatabase (fun _ => some 2) dEx "b").2.currentCatalog
        = "b" ∧
    (databricksDriver.SelectDatabase (fun _ => some 2) dEx "b").2.c = 2 :=
  ⟨(SelectDatabase_success_switches_catalog (fun _ => some 2) dEx "b" 2
      rfl).2.1,
   (SelectDatabase_success_switches_catalog (fun _ => some 2) dEx "b" 2
      rfl).2.2.1⟩

/-- A concrete parsed URL carrying a `catalog` parameter. -/
def uEx : URL :=
  { base := "token:tok@host:443/sql/path", query := [("catalog", "main")] }

/-- C3: when the connection string parses to a URL whose `catalog`
query parameter is absent or empty, `Connect` returns an error and no
driver; when the parameter is non-empty and the open succeeds, `Connect`
returns exactly the driver built from the new handle whose current
catalog is that parameter's value. -/
theorem Connect_requires_catalog :
    ∀ (parse : String → Option URL) (openDB : String → Option DB)
      (s : String) (u : URL),
      parse s = some u →
      (u.queryGet "catalog" = "" →
        ∃ msg, Databricks.Connect parse openDB s = Except.error msg) ∧
      (∀ db : DB, openDB u.render = some db →
        u.queryGet "catalog" ≠ "" →
        Databricks.Connect parse openDB s =
          Except.ok { c := db, connectionURL := u,
                      currentCatalog := u.queryGet "catalog" }) := by
  intro parse openDB s u hp
  constructor
  · intro hempty
    cases hopen : openDB u.render with
    | none =>
      exact ⟨"unable to connect to databricks",
        by simp [Databricks.Connect, hp, hopen]⟩
    | some db =>
      exact ⟨"required parameter catalog is missing",
        by simp [Databricks.Connect, hp, hopen, hempty]⟩
  · intro db hdb hne
    simp [Databricks.Connect, hp, hdb, hne]

/-- Witness for C3: a catalog-less URL is rejected; a URL with
`catalog=main` and a successful open yields the driver with current
catalog `main`. -/
theorem Connect_requires_catalog_witness :
    (∃ msg, Databricks.Connect (fun _ => some ⟨"b", []⟩)
        (fun _ => some 7) "x" = Except.error msg) ∧
    Databricks.Connect (fun _ => some uEx) (fun _ => some 7) "x" =
      Except.ok { c := 7, connectionURL := uEx, currentCatalog := "main" } := by
  constructor
  · exact (Connect_requires_catalog (fun _ => some ⟨"b", []⟩)
      (fun _ => some 7) "x" ⟨"b", []⟩ rfl).1 (by decide)
  · have h := (Connect_requires_catalog (fun _ => some uEx)
      (fun _ => some 7) "x" uEx rfl).2 7 rfl (by decide)
    simpa using h

/-- C6: a registration request whose backend-type string is neither
`postgres` nor `redis` returns an error and leaves the connection
registry exactly as it was: no entry is added, no client is
constructed, nothing is closed. -/
theorem Dbee_register_client_unsupported_type :
    ∀ (newPostgres newRedis : String → Option Client)
      (id url typ : String) (rest : List String) (reg : Registry),
      typ ≠ "postgres" → typ ≠ "redis" →
      Dbee_register_client newPostgres newRedis
          (id :: url :: typ :: rest) reg =
        (HandlerResult.err
          ("database of type \"" ++ typ ++ "\" is not supported"),
         reg, []) := by
  intro newPostgres newRedis id url typ rest reg h1 h2
  simp [Dbee_register_client, h1, h2]

/-- Witness for C6: registering with type `mysql` against the empty
registry fails with the unsupported-type error and leaves it empty. -/
theorem Dbee_register_client_unsupported_type_witness :
    Dbee_register_client (fun _ => some 1) (fun _ => some 2)
      ["id0", "mysql://u", "mysql"] (fun _ => none) =
    (HandlerResult.err "database of type \"mysql\" is not supported",
     fun _ => none, []) :=
  Dbee_register_client_unsupported_type (fun _ => some 1) (fun _ => some 2)
    "id0" "mysql://u" "mysql" [] (fun _ => none) (by decide) (by decide)

/-- C7: a well-formed call naming an id absent from the registry makes
both `Dbee_execute` and `Dbee_get_schema` fail with the
not-registered error; neither executes a query or fetches a schema,
and both leave the registry unchanged. -/
theorem unknown_connection_id_rejected :
    ∀ (atoi : String → Option Int)
      (clientExecute : Client → String → Option Rows)
      (outSet : Rows → Option String)
      (clientSchema : Client → Option SchemaMap)
      (id query bufArg : String) (rest : List String) (reg : Registry)
      (b : Int),
      atoi bufArg = some b →
      reg id = none →
      Dbee_execute atoi clientExecute outSet
          (id :: query :: bufArg :: rest) reg =
        (HandlerResult.err ("client with id " ++ id ++ " not registered"),
         [], reg) ∧
      Dbee_get_schema clientSchema (id :: query :: bufArg :: rest) reg =
        (HandlerResult.err ("client with id " ++ id ++ " not registered"),
         [], reg) := by
  intro atoi clientExecute outSet clientSchema id query bufArg rest reg b
    hatoi habsent
  constructor
  · simp [Dbee_execute, hatoi, habsent]
  · simp [Dbee_get_schema, habsent]

/-- Witness for C7: against the empty registry, both handlers reject
the id `ghost` with the not-registered error. -/
theorem unknown_connection_id_rejected_witness :
    Dbee_execute (fun _ => some 0) (fun _ _ => some []) (fun _ => none)
        ["ghost", "SELECT 1;", "0"] (fun _ => none) =
      (HandlerResult.err "client with id ghost not registered",
       [], fun _ => none) ∧
    Dbee_get_schema (fun _ => some []) ["ghost", "SELECT 1;", "0"]
        (fun _ => none) =
      (HandlerResult.err "client with id ghost not registered",
       [], fun _ => none) :=
  unknown_connection_id_rejected (fun _ => some 0) (fun _ _ => some [])
    (fun _ => none) (fun _ => some []) "ghost" "SELECT 1;" "0" []
    (fun _ => none) 0 rfl rfl

/-- C9: a successful registration under an id that is already present
stores the newly constructed client under that id — the previous client
is silently replaced (last writer wins) and is not closed by the
handler. -/
theorem Dbee_register_client_overwrites_existing_id :
    ∀ (newPostgres newRedis : String → Option Client)
      (id url : String) (rest : List String) (reg : Registry)
      (oldClient newClient : Client),
      reg id = some oldClient →
      newPostgres url = some newClient →
      Dbee_register_client newPostgres newRedis
          (id :: url :: "postgres" :: rest) reg =
        (HandlerResult.ok (), reg.set id newClient, []) ∧
      (reg.set id newClient) id = some newClient := by
  intro newPostgres newRedis id url rest reg oldClient newClient hold hnew
  constructor
  · simp [Dbee_register_client, hnew]
  · simp [Registry.set]

/-- Witness for C9: re-registering id `a` (currently client `5`) as a
postgres connection yielding client `9` overwrites the entry with `9`
and closes nothing. -/
theorem Dbee_register_client_overwrites_witness :
    Registry.set (fun k => if k = "a" then some 5 else none) "a" 9 "a"
      = some 9 :=
  (Dbee_register_client_overwrites_existing_id (fun _ => some 9)
    (fun _ => none) "a" "postgres://u" []
    (fun k => if k = "a" then some 5 else none) 5 9 (by decide) rfl).2

end NvimDbee
